import Mathlib

/-!
Verification of the CASIE bridge HTTP service
(src/casie-bridge/main.py and src/bridge/main.py).

The two Python files define FastAPI applications.  We embed each route
handler as a pure Lean function from an explicit environment (the process
token, the filesystem, the clock, and the outcome of the upstream network
call) to an HTTP response together with the trace of side effects the
handler performed (OS launches, file reads, the final cache-file state and
key-value-store sync attempts).  Machine-level concerns that the Python
code delegates to the OS (a file read failing on an existing file,
subprocess.Popen itself raising) are outside the model: the model captures
every decision the Python code makes on the data it sees.
-/

/-- A JSON value, the shape of FastAPI request/response bodies and of the
decoded upstream payloads.  Numbers are modelled as exact rationals. -/
inductive Json where
  | null
  | bool (b : Bool)
  | num (q : Rat)
  | str (s : String)
  | arr (elems : List Json)
  | obj (fields : List (String × Json))

/-- Field lookup in an association list, first match wins — the model of
`dict.get` on the decoded JSON object (Python dicts have unique keys; on
the lists we build, lookup of the first match coincides). -/
def lookupField : List (String × Json) → String → Option Json
  | [], _ => none
  | (k, v) :: rest, key => if k = key then some v else lookupField rest key

/-- Model of Python's `d.get(key)` for a JSON value: `none` when the value
is not an object or the key is absent (on a non-dict Python value `.get`
raises AttributeError; that case is handled separately at each use site). -/
def jget (j : Json) (key : String) : Option Json :=
  match j with
  | .obj fields => lookupField fields key
  | _ => none

/-- An HTTP response: status code plus JSON body.  FastAPI serialises an
`HTTPException` as a body with a single `detail` field. -/
structure Response where
  statusCode : Nat
  body : Json

/-- The body FastAPI produces for a raised HTTPException. -/
def errBody (detail : String) : Json :=
  Json.obj [("detail", Json.str detail)]

/-! ## Credential guard

`security = HTTPBearer()` (src/casie-bridge/main.py line 42, src/bridge/main.py
line 60) and `verify_token` (lines 72-83 resp. 69-80). -/

/-- Model of `fastapi.security.HTTPBearer` with its default
`auto_error=True`: when the Authorization header is absent or does not
carry a Bearer-scheme credential, FastAPI rejects the request with
HTTP 403 ("Not authenticated") before the route's `verify_token`
dependency ever runs.  A request is therefore modelled as carrying an
`Option String` bearer credential. -/
def HTTPBearer_extract (credential : Option String) : Except Response String :=
  match credential with
  | none => Except.error ⟨403, errBody "Not authenticated"⟩
  | some c => Except.ok c

/-- `verify_token` from the source: the extracted bearer credential is
compared by string equality against the process token `API_AUTH_TOKEN`;
a mismatch raises HTTPException 401. -/
def verify_token (apiToken : String) (credentials : String) : Except Response String :=
  if credentials ≠ apiToken then
    Except.error ⟨401, errBody "Invalid authentication token"⟩
  else
    Except.ok credentials

/-- The full guard a route declares via `Security(verify_token)`:
HTTPBearer extraction followed by `verify_token`. -/
def run_guard (apiToken : String) (credential : Option String) : Except Response String :=
  match HTTPBearer_extract credential with
  | Except.error r => Except.error r
  | Except.ok c => verify_token apiToken c

/-! ## The GeoLocation cache file -/

/-- What `datetime.fromisoformat(cached_data.get("last_updated", ""))`
followed by the age subtraction (main.py lines 150-151) does on the
`last_updated` slot of a dict cache document:

* `ok t` — the value is a string parsing to a timezone-aware datetime
  denoting the instant `t` (seconds on the UTC timeline); the freshness
  check proceeds.
* `valueError` — the key is absent (the default `""`) or the value is an
  unparsable string: `fromisoformat` raises ValueError, which IS in the
  `except (json.JSONDecodeError, KeyError, ValueError)` tuple, so the
  freshness path treats the file as a cache miss.
* `typeError` — the value is not a string (`fromisoformat` raises
  TypeError) or parses to a timezone-naive datetime (the aware-minus-naive
  subtraction at line 151 raises TypeError): TypeError is NOT in the
  except tuple, the exception escapes the route handler, and the caller
  gets the framework's plain 500. -/
inductive TimestampParse where
  | ok (t : Rat)
  | valueError
  | typeError

/-- A cache file whose content is a JSON object: `location` is
`cached_data.get("location")` (`Json.null` when absent),
`last_updated_raw` is `cached_data.get("last_updated")` exactly as the
responses echo it back, and `ts` is what the freshness check's timestamp
parse does on it. -/
structure CacheDict where
  location : Json
  last_updated_raw : Json
  ts : TimestampParse

/-- What reading `location.json` yields once the file exists:

* `notJson` — `json.load` raises json.JSONDecodeError: caught in the
  freshness path (treated as a miss) and by the bare `except: pass` of the
  stale-fallback path.
* `nonDict j` — valid JSON that is not an object (a list, string, number,
  bool or null): `cached_data.get` raises AttributeError, which the
  freshness path's except tuple does NOT catch (the request dies with the
  framework's plain 500) but the fallback path's bare except does.
* `dict d` — a JSON object, with its timestamp slot parsed as `d.ts`. -/
inductive CacheFileContent where
  | notJson
  | nonDict (j : Json)
  | dict (d : CacheDict)

/-! ## Upstream call and KV sync -/

/-- Outcome of the upstream `httpx` GET to ip-api.com as the handler sees
it: a transport-level failure (connection error, timeout, or an HTTP error
status surfaced by `raise_for_status` — all `httpx.HTTPError`), a body
that is not valid JSON (`response.json()` raises a ValueError, which is
not an `httpx.HTTPError`), or a decoded JSON body. -/
inductive UpstreamResult where
  | transportError (msg : String)
  | badJson (msg : String)
  | ok (body : Json)

/-- Python `str(...)` of a JSON value as used in f-string error details.
Only the `str` case is ever exercised by ip-api payloads; the remaining
cases are a total but schematic rendering. -/
def pyStrOfJson : Json → String
  | .str s => s
  | .null => "None"
  | .bool true => "True"
  | .bool false => "False"
  | .num q => toString q
  | .arr _ => "[...]"
  | .obj _ => "\x7b...\x7d"

/-- `location_data.get("status") == "fail"` (line 177). -/
def isFailStatus (body : Json) : Bool :=
  match jget body "status" with
  | some (Json.str s) => s = "fail"
  | _ => false

/-- `location_data.get('message', 'Unknown error')` rendered into the
error detail (line 180). -/
def failMessage (body : Json) : String :=
  match jget body "message" with
  | none => "Unknown error"
  | some v => pyStrOfJson v

/-- `sync_location_to_kv` (src/casie-bridge/main.py lines 47-69): returns
False when KV sync is disabled; otherwise performs the PUT and returns
True on success and False on any exception — it never propagates an
error.  `callOk` is the outcome of the PUT the environment would deliver. -/
def sync_location_to_kv (kvSyncEnabled : Bool) (callOk : Bool) : Bool :=
  if ¬ kvSyncEnabled then false
  else callOk

/-! ## Environment and effect trace -/

/-- The process-wide state and ambient world a single request sees:
the configured token, the content of `videos.md` and `location.json`
(`none` = file absent), the set of paths `os.path.exists` reports, the
current UTC instant both as seconds (`now`) and as the ISO string
`datetime.now(timezone.utc).isoformat()` would produce (`nowIso`), the
outcome the upstream geolocation call would have, and the KV-sync
configuration and outcome. -/
structure Env where
  apiToken : String
  videosFile : Option String
  locationCache : Option CacheFileContent
  existingPaths : List String
  now : Rat
  nowIso : String
  upstream : UpstreamResult
  kvSyncEnabled : Bool
  kvCallOk : Bool

/-- The observable side effects of handling one request: the argv of each
`subprocess.Popen` launch, the names of the files opened for reading, the
final content of `location.json`, and the outcomes of the KV sync calls
made. -/
structure HState where
  launches : List (List String)
  reads : List String
  locationCache : Option CacheFileContent
  kvSyncs : List Bool

/-- The effect trace of a request that touched nothing. -/
def st0 (env : Env) : HState :=
  ⟨[], [], env.locationCache, []⟩

/-! ## Route handlers, translated from src/casie-bridge/main.py -/

/-- `root` (lines 86-89). -/
def root_handler : Response :=
  ⟨200, Json.obj [("ok", Json.bool true), ("service", Json.str "CASIE Bridge")]⟩

/-- `health` (lines 92-100). -/
def health_handler : Response :=
  ⟨200, Json.obj [("status", Json.str "healthy"),
                  ("service", Json.str "CASIE Bridge"),
                  ("version", Json.str "1.0.0"),
                  ("authenticated", Json.bool true)]⟩

/-- `videos` (lines 103-130): 404 when `videos.md` is absent, otherwise
200 with the file content verbatim in the `content` field. -/
def videos_handler (videosFile : Option String) : Response :=
  match videosFile with
  | none =>
      ⟨404, errBody "Videos index not found. Run videos.py to generate it."⟩
  | some content =>
      ⟨200, Json.obj [("ok", Json.bool true),
                      ("content", Json.str content),
                      ("file", Json.str "videos.md")]⟩

/-- `open_file` (lines 239-268): 404 with no launch when the path does
not exist, otherwise one `subprocess.Popen(["cmd","/c","start","",path])`
launch and a 200. -/
def open_file_handler (existingPaths : List String) (path : String) :
    Response × List (List String) :=
  if path ∈ existingPaths then
    (⟨200, Json.obj [("ok", Json.bool true),
                     ("path", Json.str path),
                     ("message", Json.str "File opened successfully")]⟩,
     [["cmd", "/c", "start", "", path]])
  else
    (⟨404, errBody ("File not found: " ++ path)⟩, [])

/-- `lock_pc` (lines 271-293). -/
def lock_handler : Response × List (List String) :=
  (⟨200, Json.obj [("ok", Json.bool true),
                   ("message", Json.str "PC locked successfully")]⟩,
   [["rundll32.exe", "user32.dll,LockWorkStation"]])

/-- `restart_pc` (lines 296-318). -/
def restart_handler : Response × List (List String) :=
  (⟨200, Json.obj [("ok", Json.bool true),
                   ("message", Json.str "PC restart initiated")]⟩,
   [["shutdown", "/r", "/t", "0", "/f"]])

/-- `shutdown_pc` (lines 321-343). -/
def shutdown_handler : Response × List (List String) :=
  (⟨200, Json.obj [("ok", Json.bool true),
                   ("message", Json.str "PC shutdown initiated")]⟩,
   [["shutdown", "/s", "/t", "0", "/f"]])

/-- `sleep_pc` (lines 346-368). -/
def sleep_handler : Response × List (List String) :=
  (⟨200, Json.obj [("ok", Json.bool true),
                   ("message", Json.str "PC sleep initiated")]⟩,
   [["rundll32.exe", "powrprof.dll,SetSuspendState", "0", "1", "0"]])

/-! ## The location handler (lines 133-231)

Python's `round(x, 2)` on the fresh-cache age, modelled exactly on the
rational value: round half to even at two decimal places. -/

/-- Round half to even to the nearest integer. -/
def roundHalfEven (x : Rat) : Int :=
  let f : Int := ⌊x⌋
  let frac : Rat := x - f
  if frac < 1/2 then f
  else if 1/2 < frac then f + 1
  else if f % 2 = 0 then f else f + 1

/-- `round(age_hours, 2)` (line 160). -/
def pyRound2 (x : Rat) : Rat :=
  (roundHalfEven (x * 100) : Rat) / 100

/-- The 3-hour TTL, `cache_ttl_hours` (line 141). -/
def cache_ttl_hours : Rat := 3

/-- The 200 body served from a fresh cache entry (lines 155-161); `t` is
the instant the document's timestamp denotes, and `last_updated` echoes
the stored value raw. -/
def freshCacheBody (now t : Rat) (d : CacheDict) : Json :=
  Json.obj [("ok", Json.bool true),
            ("location", d.location),
            ("cached", Json.bool true),
            ("last_updated", d.last_updated_raw),
            ("age_hours", Json.num (pyRound2 ((now - t) / 3600)))]

/-- The 200 body after a successful refresh (lines 196-202). -/
def refreshSuccessBody (body : Json) (nowIso : String) : Json :=
  Json.obj [("ok", Json.bool true),
            ("location", body),
            ("cached", Json.bool false),
            ("last_updated", Json.str nowIso),
            ("age_hours", Json.num 0)]

/-- The 200 body of the stale-cache fallback (lines 211-218): the
fallback performs no timestamp parsing at all, it just echoes
`cached_data.get("location")` and `cached_data.get("last_updated")`. -/
def staleCacheBody (d : CacheDict) : Json :=
  Json.obj [("ok", Json.bool true),
            ("location", d.location),
            ("cached", Json.bool true),
            ("stale", Json.bool true),
            ("last_updated", d.last_updated_raw),
            ("warning", Json.str "Using stale cache due to API error")]

/-- The response Starlette's error middleware produces when an exception
escapes the route handler (the uncaught AttributeError and TypeError
cases): a plain-text 500, not a JSON detail envelope. -/
def internalServerError : Response :=
  ⟨500, Json.str "Internal Server Error"⟩

/-- The refresh part of the `location` handler (lines 166-231), entered
when the cache is absent, corrupt, or expired.  `reads` is the trace of
file reads already performed.

One behaviour deserves note: the `HTTPException(502, "IP API error: …")`
raised when the upstream reports `status == "fail"` (lines 177-181) is
raised inside the `try` block whose clauses are `except httpx.HTTPError`
and then `except Exception`.  FastAPI's HTTPException subclasses
`Exception` and is not an `httpx.HTTPError`, so it is caught by the
second clause (lines 227-231) and re-raised as HTTPException 500 with
detail `"Error retrieving location: " + str(e)`, where starlette renders
`str(e)` as `"502: IP API error: …"`.  The stale-cache fallback only
applies to `httpx.HTTPError`, hence never to this case.  Likewise a
non-JSON upstream body (ValueError from `response.json()`) and a non-dict
JSON body (AttributeError from `.get`) reach the generic clause and
become a 500.  By contrast, the `HTTPException(502)` raised at lines
223-226 sits inside the `except httpx.HTTPError` clause itself, so it
propagates.  The fallback re-read at lines 206-220 is guarded by a bare
`except: pass`: any dict content — whatever its timestamp slot holds — is
served as stale, while unreadable (notJson) or non-dict content makes the
fallback pass and fall through to the 502. -/
def location_refresh (env : Env) (reads : List String) : Response × HState :=
  match env.upstream with
  | .transportError msg =>
      match env.locationCache with
      | some (.dict d) =>
          (⟨200, staleCacheBody d⟩,
           ⟨[], reads ++ ["location.json"], env.locationCache, []⟩)
      | some .notJson =>
          (⟨502, errBody ("Failed to fetch location data: " ++ msg)⟩,
           ⟨[], reads ++ ["location.json"], env.locationCache, []⟩)
      | some (.nonDict _) =>
          (⟨502, errBody ("Failed to fetch location data: " ++ msg)⟩,
           ⟨[], reads ++ ["location.json"], env.locationCache, []⟩)
      | none =>
          (⟨502, errBody ("Failed to fetch location data: " ++ msg)⟩,
           ⟨[], reads, env.locationCache, []⟩)
  | .badJson msg =>
      (⟨500, errBody ("Error retrieving location: " ++ msg)⟩,
       ⟨[], reads, env.locationCache, []⟩)
  | .ok body =>
      match body with
      | Json.obj fields =>
          if isFailStatus (Json.obj fields) then
            (⟨500, errBody ("Error retrieving location: 502: IP API error: "
                             ++ failMessage (Json.obj fields))⟩,
             ⟨[], reads, env.locationCache, []⟩)
          else
            (⟨200, refreshSuccessBody (Json.obj fields) env.nowIso⟩,
             ⟨[], reads,
              some (.dict ⟨Json.obj fields, Json.str env.nowIso,
                           TimestampParse.ok env.now⟩),
              [sync_location_to_kv env.kvSyncEnabled env.kvCallOk]⟩)
      | _ =>
          (⟨500, errBody "Error retrieving location: object has no attribute get"⟩,
           ⟨[], reads, env.locationCache, []⟩)

/-- `location` (lines 133-231): serve the cached document when it exists,
parses, and `age_hours < cache_ttl_hours`; refresh when the file is
missing or its read raises one of the caught exceptions
(json.JSONDecodeError, KeyError, ValueError); but die with the
framework's plain 500 when the read raises an exception the tuple does
not cover — AttributeError on a non-dict JSON content, TypeError on a
non-string or timezone-naive `last_updated`. -/
def location_handler (env : Env) : Response × HState :=
  match env.locationCache with
  | some (.dict d) =>
      match d.ts with
      | .ok t =>
          let age_hours := (env.now - t) / 3600
          if age_hours < cache_ttl_hours then
            (⟨200, freshCacheBody env.now t d⟩,
             ⟨[], ["location.json"], env.locationCache, []⟩)
          else
            location_refresh env ["location.json"]
      | .valueError =>
          location_refresh env ["location.json"]
      | .typeError =>
          (internalServerError, ⟨[], ["location.json"], env.locationCache, []⟩)
  | some (.nonDict _) =>
      (internalServerError, ⟨[], ["location.json"], env.locationCache, []⟩)
  | some .notJson =>
      location_refresh env ["location.json"]
  | none =>
      location_refresh env []

/-! ## Routes and dispatcher -/

/-- The routes the application exposes. -/
inductive Route where
  | root
  | health
  | videos
  | location
  | openFile (path : String)
  | lock
  | restart
  | shutdownPC
  | sleepPC

/-- The application: run the credential guard, then the route handler.
Every handler declares `token: str = Security(verify_token)`, so the
guard runs before any handler body: a rejected request performs no file
access, no launch, no cache write and no KV call. -/
def handle (env : Env) (credential : Option String) (route : Route) :
    Response × HState :=
  match run_guard env.apiToken credential with
  | Except.error resp => (resp, st0 env)
  | Except.ok _ =>
    match route with
    | .root => (root_handler, st0 env)
    | .health => (health_handler, st0 env)
    | .videos =>
        (videos_handler env.videosFile,
         ⟨[], (match env.videosFile with | some _ => ["videos.md"] | none => []),
          env.locationCache, []⟩)
    | .location => location_handler env
    | .openFile path =>
        let r := open_file_handler env.existingPaths path
        (r.1, ⟨r.2, [], env.locationCache, []⟩)
    | .lock => (lock_handler.1, ⟨lock_handler.2, [], env.locationCache, []⟩)
    | .restart => (restart_handler.1, ⟨restart_handler.2, [], env.locationCache, []⟩)
    | .shutdownPC => (shutdown_handler.1, ⟨shutdown_handler.2, [], env.locationCache, []⟩)
    | .sleepPC => (sleep_handler.1, ⟨sleep_handler.2, [], env.locationCache, []⟩)

/-! ## The older bridge application, src/bridge/main.py

It exposes only `/`, `/health`, `/videos` and `/open`.  Its `videos`
(lines 101-128) and `open_file` (lines 136-166) handlers are translated
here independently; `open_file` additionally logs before validating,
which produces no observable response or launch difference. -/

/-- `videos` from src/bridge/main.py lines 101-128. -/
def bridge_videos_handler (videosFile : Option String) : Response :=
  match videosFile with
  | none =>
      ⟨404, errBody "Videos index not found. Run videos.py to generate it."⟩
  | some content =>
      ⟨200, Json.obj [("ok", Json.bool true),
                      ("content", Json.str content),
                      ("file", Json.str "videos.md")]⟩

/-- `open_file` from src/bridge/main.py lines 136-166. -/
def bridge_open_file_handler (existingPaths : List String) (path : String) :
    Response × List (List String) :=
  if path ∈ existingPaths then
    (⟨200, Json.obj [("ok", Json.bool true),
                     ("path", Json.str path),
                     ("message", Json.str "File opened successfully")]⟩,
     [["cmd", "/c", "start", "", path]])
  else
    (⟨404, errBody ("File not found: " ++ path)⟩, [])

/-! ## Concrete inputs used by counterexamples and witnesses -/

/-- A baseline environment: token "secret", a generated videos index, no
location cache, one existing path, upstream failing at transport level,
KV sync disabled. -/
def envA : Env :=
  { apiToken := "secret"
  , videosFile := some "## Shows"
  , locationCache := none
  , existingPaths := ["C:/movie.mkv"]
  , now := 0
  , nowIso := "1970-01-01T00:00:00+00:00"
  , upstream := UpstreamResult.transportError "timeout"
  , kvSyncEnabled := false
  , kvCallOk := false }

/-- A well-formed cache document written at time T = 0. -/
def docT : CacheDict :=
  ⟨Json.obj [("city", Json.str "Pune")],
   Json.str "1970-01-01T00:00:00+00:00",
   TimestampParse.ok 0⟩

/-- envA with the upstream reporting a semantic failure status. -/
def envC2 : Env :=
  { envA with
    upstream := UpstreamResult.ok
        (Json.obj [("status", Json.str "fail"), ("message", Json.str "private range")]) }

/-- envC2 with a stale cache entry on disk (written at T = 0, request at
T plus 4 hours). -/
def envC2cache : Env :=
  { envC2 with locationCache := some (CacheFileContent.dict docT), now := 14400 }

/-- envA with a stale cache entry (written at T = 0, request at T plus 4
hours) and the upstream failing at transport level. -/
def envC3a : Env :=
  { envA with locationCache := some (CacheFileContent.dict docT), now := 14400 }

/-- envA with a cache entry written at T = 0 and a request at T plus 2
hours 59 minutes (10740 seconds). -/
def envC4a : Env :=
  { envA with locationCache := some (CacheFileContent.dict docT), now := 10740 }

/-- envA with a cache entry written at T = 0 and a request at T plus 3
hours 1 minute (10860 seconds). -/
def envC4b : Env :=
  { envA with locationCache := some (CacheFileContent.dict docT), now := 10860 }

/-- envA with a cache file holding valid JSON that is not a dict — the
list content a text editor slip or a partial write could leave behind. -/
def envC5 : Env :=
  { envA with
    locationCache := some (CacheFileContent.nonDict
        (Json.arr [Json.num 1, Json.num 2, Json.num 3])) }

/-- envA without a videos index file. -/
def envC6 : Env := { envA with videosFile := none }

/-- envA with the upstream succeeding with a normal payload. -/
def envC8 : Env :=
  { envA with
    upstream := UpstreamResult.ok
        (Json.obj [("status", Json.str "success"), ("city", Json.str "Pune")]) }

/-- Whether the location handler will enter its refresh path: the cache
is absent, unreadable in a way the code catches (invalid JSON, or a dict
whose timestamp parse raises the caught ValueError), or readable with an
age at least the TTL.  Non-dict JSON contents and dicts whose timestamp
raises the uncaught TypeError are excluded: there the handler dies with a
500 before reaching the refresh. -/
def cacheNeedsRefresh (env : Env) : Prop :=
  match env.locationCache with
  | none => True
  | some CacheFileContent.notJson => True
  | some (CacheFileContent.nonDict _) => False
  | some (CacheFileContent.dict d) =>
      match d.ts with
      | TimestampParse.valueError => True
      | TimestampParse.typeError => False
      | TimestampParse.ok t => ¬ ((env.now - t) / 3600 < cache_ttl_hours)

/-! ## C1 — credential guard -/

/-- C1 counterexample: a request to POST /lock that carries no bearer
credential at all (no Authorization header) is rejected with HTTP 403 by
the HTTPBearer security scheme, not with the claimed 401 — though still
with no side effect. -/
theorem C1_counterexample :
    (handle envA none Route.lock).1.statusCode = 403 ∧
    ¬ (handle envA none Route.lock).1.statusCode = 401 ∧
    (handle envA none Route.lock).2 = st0 envA := by
  refine ⟨rfl, by decide, rfl⟩

/-- C1 (amended): any request whose credential is not exactly the process
token causes no side effect at all (the effect trace is empty and the
cache file is untouched), and is rejected with 401 when it carries some
bearer credential, with 403 when it carries none. -/
theorem C1_auth_guard (env : Env) (credential : Option String) (route : Route)
    (h : credential ≠ some env.apiToken) :
    (handle env credential route).2 = st0 env ∧
    (credential = none →
        (handle env credential route).1 = ⟨403, errBody "Not authenticated"⟩) ∧
    (∀ c, credential = some c →
        (handle env credential route).1 = ⟨401, errBody "Invalid authentication token"⟩) := by
  cases credential with
  | none =>
      refine ⟨rfl, fun _ => rfl, fun c hc => by cases hc⟩
  | some c =>
      have hc : c ≠ env.apiToken := fun he => h (by rw [he])
      refine ⟨?_, ?_, ?_⟩
      · simp [handle, run_guard, HTTPBearer_extract, verify_token, hc]
      · intro hn; cases hn
      · intro c2 hc2
        simp [handle, run_guard, HTTPBearer_extract, verify_token, hc]

/-- C1 witness: a wrong bearer credential on POST /shutdown yields 401
and an empty effect trace. -/
theorem C1_auth_guard_witness :
    (some "wrong" : Option String) ≠ some envA.apiToken ∧
    (handle envA (some "wrong") Route.shutdownPC).2 = st0 envA ∧
    (handle envA (some "wrong") Route.shutdownPC).1 =
      ⟨401, errBody "Invalid authentication token"⟩ := by
  have h : (some "wrong" : Option String) ≠ some envA.apiToken := by decide
  exact ⟨h, (C1_auth_guard envA (some "wrong") Route.shutdownPC h).1,
         (C1_auth_guard envA (some "wrong") Route.shutdownPC h).2.2 "wrong" rfl⟩

/-! ## C2 — upstream-reported failure status -/

/-- C2: when the upstream responds at transport level but reports the
semantic failure status, the handler raises HTTPException 502 inside its
own try block; the trailing generic except clause catches it (FastAPI's
HTTPException is an Exception but not an httpx.HTTPError) and re-raises
it as HTTP 500.  So the request yields 500 — not the claimed 502 — when
no cache exists, and still 500 — not the claimed stale fallback — when a
stale cache entry exists. -/
theorem C2_upstream_reported_failure :
    (handle envC2 (some "secret") Route.location).1 =
      ⟨500, errBody "Error retrieving location: 502: IP API error: private range"⟩ ∧
    (handle envC2cache (some "secret") Route.location).1 =
      ⟨500, errBody "Error retrieving location: 502: IP API error: private range"⟩ ∧
    ¬ (handle envC2 (some "secret") Route.location).1.statusCode = 502 ∧
    ¬ (handle envC2cache (some "secret") Route.location).1 =
        ⟨200, staleCacheBody docT⟩ := by
  have h1 : (handle envC2 (some "secret") Route.location).1 =
      ⟨500, errBody "Error retrieving location: 502: IP API error: private range"⟩ := rfl
  have hstale : ¬ (envC2cache.now / 3600 < cache_ttl_hours) := by
    norm_num [envC2cache, envC2, envA, cache_ttl_hours]
  have h2 : (handle envC2cache (some "secret") Route.location).1 =
      ⟨500, errBody "Error retrieving location: 502: IP API error: private range"⟩ := by
    have : handle envC2cache (some "secret") Route.location =
        location_refresh envC2cache ["location.json"] := by
      simp [handle, run_guard, HTTPBearer_extract, verify_token, location_handler,
            show envC2cache.apiToken = "secret" from rfl,
            show envC2cache.locationCache = some (CacheFileContent.dict docT) from rfl,
            show docT.ts = TimestampParse.ok 0 from rfl,
            hstale]
    rw [this]
    rfl
  refine ⟨h1, h2, ?_, ?_⟩
  · rw [h1]; simp
  · rw [h2]; intro h
    have := congrArg Response.statusCode h
    simp [errBody] at this

/-! ## C3 — stale fallback on transport failure -/

/-- C3: on a transport-level upstream failure, a request finding an
expired but valid cache entry is answered 200 with the cached payload
marked stale, and a request finding no cache entry is answered 502. -/
theorem C3_stale_fallback (env : Env) (msg : String)
    (hup : env.upstream = UpstreamResult.transportError msg) :
    (∀ d t, env.locationCache = some (CacheFileContent.dict d) →
        d.ts = TimestampParse.ok t →
        ¬ ((env.now - t) / 3600 < cache_ttl_hours) →
        (handle env (some env.apiToken) Route.location).1 = ⟨200, staleCacheBody d⟩) ∧
    (env.locationCache = none →
        (handle env (some env.apiToken) Route.location).1 =
          ⟨502, errBody ("Failed to fetch location data: " ++ msg)⟩) := by
  constructor
  · intro d t hc hts hfresh
    simp [handle, run_guard, HTTPBearer_extract, verify_token,
          location_handler, hc, hts, hfresh, location_refresh, hup]
  · intro hc
    simp [handle, run_guard, HTTPBearer_extract, verify_token,
          location_handler, hc, location_refresh, hup]

/-- C3 witness: with a cache entry written at T = 0 and a transport
failure at T plus 4 hours the response is the stale 200; with no cache the
response is the 502. -/
theorem C3_stale_fallback_witness :
    (handle envC3a (some "secret") Route.location).1 = ⟨200, staleCacheBody docT⟩ ∧
    (handle envA (some "secret") Route.location).1 =
      ⟨502, errBody "Failed to fetch location data: timeout"⟩ := by
  exact ⟨(C3_stale_fallback envC3a "timeout" rfl).1 docT 0 rfl rfl
           (by norm_num [envC3a, envA, cache_ttl_hours]),
         (C3_stale_fallback envA "timeout" rfl).2 rfl⟩

/-! ## C4 — cache freshness boundary -/

/-- C4: a valid cache entry is served directly — without consulting the
upstream at all, the result does not mention the upstream outcome — iff
its age is strictly below the 3-hour TTL; otherwise the handler proceeds
to the refresh path. -/
theorem C4_cache_freshness (env : Env) (d : CacheDict) (t : Rat)
    (hc : env.locationCache = some (CacheFileContent.dict d))
    (hts : d.ts = TimestampParse.ok t) :
    ((env.now - t) / 3600 < cache_ttl_hours →
        handle env (some env.apiToken) Route.location =
          (⟨200, freshCacheBody env.now t d⟩,
           ⟨[], ["location.json"], env.locationCache, []⟩)) ∧
    (¬ ((env.now - t) / 3600 < cache_ttl_hours) →
        handle env (some env.apiToken) Route.location =
          location_refresh env ["location.json"]) := by
  constructor
  · intro hfresh
    simp [handle, run_guard, HTTPBearer_extract, verify_token,
          location_handler, hc, hts, hfresh]
  · intro hfresh
    simp [handle, run_guard, HTTPBearer_extract, verify_token,
          location_handler, hc, hts, hfresh]

/-- C4 witness: a cache entry written at T = 0 is served from cache at
T plus 2 hours 59 minutes and sent to the refresh path at T plus 3 hours
1 minute. -/
theorem C4_cache_freshness_witness :
    handle envC4a (some "secret") Route.location =
      (⟨200, freshCacheBody envC4a.now 0 docT⟩,
       ⟨[], ["location.json"], envC4a.locationCache, []⟩) ∧
    handle envC4b (some "secret") Route.location =
      location_refresh envC4b ["location.json"] := by
  exact ⟨(C4_cache_freshness envC4a docT 0 rfl rfl).1
           (by norm_num [envC4a, envA, cache_ttl_hours]),
         (C4_cache_freshness envC4b docT 0 rfl rfl).2
           (by norm_num [envC4b, envA, cache_ttl_hours])⟩

/-! ## C5 — a corrupt cache is NOT always treated as missing -/

/-- C5, evaluated at the failing input: a cache file holding the valid
JSON non-dict content [1, 2, 3] makes the freshness check's
`cached_data.get("last_updated", "")` raise an AttributeError, which the
`except (json.JSONDecodeError, KeyError, ValueError)` tuple does not
cover; the exception escapes the handler and the caller gets the
framework's plain 500, with no refresh attempted.  The same request with
the cache file missing proceeds to refresh (here the upstream fails at
transport level, hence 502).  So this corrupt content does not behave
like a missing file and the corruption IS surfaced as an error,
contrary to the claim and to the code's own comment that a corrupted
cache will fetch fresh data. -/
theorem C5_corrupt_cache_surfaces_500 :
    (handle envC5 (some "secret") Route.location).1 = internalServerError ∧
    (handle { envC5 with locationCache := none } (some "secret") Route.location).1 =
      ⟨502, errBody "Failed to fetch location data: timeout"⟩ ∧
    ¬ (handle envC5 (some "secret") Route.location).1.statusCode =
        (handle { envC5 with locationCache := none }
          (some "secret") Route.location).1.statusCode := by
  have h1 : (handle envC5 (some "secret") Route.location).1 =
      internalServerError := rfl
  have h2 : (handle { envC5 with locationCache := none }
        (some "secret") Route.location).1 =
      ⟨502, errBody "Failed to fetch location data: timeout"⟩ := rfl
  refine ⟨h1, h2, ?_⟩
  rw [h1, h2]
  simp [internalServerError]

/-! ## C6 — videos index -/

/-- C6: GET /videos is 404 when the index file is absent and 200 with the
file content verbatim in the content field when it is present. -/
theorem C6_videos (env : Env) :
    (env.videosFile = none →
        (handle env (some env.apiToken) Route.videos).1 =
          ⟨404, errBody "Videos index not found. Run videos.py to generate it."⟩) ∧
    (∀ content, env.videosFile = some content →
        (handle env (some env.apiToken) Route.videos).1 =
          ⟨200, Json.obj [("ok", Json.bool true),
                          ("content", Json.str content),
                          ("file", Json.str "videos.md")]⟩) := by
  constructor
  · intro hc
    simp [handle, run_guard, HTTPBearer_extract, verify_token, videos_handler, hc]
  · intro content hc
    simp [handle, run_guard, HTTPBearer_extract, verify_token, videos_handler, hc]

/-- C6 witness: an environment with the index present serves its content,
one with the index absent yields the 404. -/
theorem C6_videos_witness :
    (handle envC6 (some "secret") Route.videos).1 =
      ⟨404, errBody "Videos index not found. Run videos.py to generate it."⟩ ∧
    (handle envA (some "secret") Route.videos).1 =
      ⟨200, Json.obj [("ok", Json.bool true),
                      ("content", Json.str "## Shows"),
                      ("file", Json.str "videos.md")]⟩ := by
  exact ⟨(C6_videos envC6).1 rfl, (C6_videos envA).2 "## Shows" rfl⟩

/-! ## C7 — open file -/

/-- C7: POST /open with a nonexistent path is 404 with no launch; with an
existing path it is 200 carrying the path and performs exactly one launch,
whose argv names that path. -/
theorem C7_open_file (env : Env) (path : String) :
    (path ∉ env.existingPaths →
        (handle env (some env.apiToken) (Route.openFile path)).1 =
          ⟨404, errBody ("File not found: " ++ path)⟩ ∧
        (handle env (some env.apiToken) (Route.openFile path)).2.launches = []) ∧
    (path ∈ env.existingPaths →
        (handle env (some env.apiToken) (Route.openFile path)).1 =
          ⟨200, Json.obj [("ok", Json.bool true),
                          ("path", Json.str path),
                          ("message", Json.str "File opened successfully")]⟩ ∧
        (handle env (some env.apiToken) (Route.openFile path)).2.launches =
          [["cmd", "/c", "start", "", path]]) := by
  constructor
  · intro h
    constructor <;>
      simp [handle, run_guard, HTTPBearer_extract, verify_token, open_file_handler, h]
  · intro h
    constructor <;>
      simp [handle, run_guard, HTTPBearer_extract, verify_token, open_file_handler, h]

/-- C7 witness: with the filesystem of envA, the path "/nonexistent" is
rejected without a launch and "C:/movie.mkv" is opened with one launch. -/
theorem C7_open_file_witness :
    ((handle envA (some "secret") (Route.openFile "/nonexistent")).1 =
        ⟨404, errBody "File not found: /nonexistent"⟩ ∧
      (handle envA (some "secret") (Route.openFile "/nonexistent")).2.launches = []) ∧
    ((handle envA (some "secret") (Route.openFile "C:/movie.mkv")).1 =
        ⟨200, Json.obj [("ok", Json.bool true),
                        ("path", Json.str "C:/movie.mkv"),
                        ("message", Json.str "File opened successfully")]⟩ ∧
      (handle envA (some "secret") (Route.openFile "C:/movie.mkv")).2.launches =
        [["cmd", "/c", "start", "", "C:/movie.mkv"]]) := by
  exact ⟨(C7_open_file envA "/nonexistent").1 (by decide),
         (C7_open_file envA "C:/movie.mkv").2 (by decide)⟩

/-! ## C8 — KV mirroring failure is harmless -/

/-- C8: when a refresh succeeds (the handler is in its refresh path, the
upstream returns a JSON object without the failure status), the response
is 200 with the freshly fetched payload for every KV-sync configuration
and outcome — enabled and succeeding, enabled and failing, or disabled —
and the sync call itself is still recorded with its own outcome. -/
theorem C8_kv_failure_harmless (env : Env) (fields : List (String × Json))
    (hre : cacheNeedsRefresh env)
    (hup : env.upstream = UpstreamResult.ok (Json.obj fields))
    (hfail : isFailStatus (Json.obj fields) = false)
    (e o : Bool) :
    (handle { env with kvSyncEnabled := e, kvCallOk := o }
        (some env.apiToken) Route.location).1 =
      ⟨200, refreshSuccessBody (Json.obj fields) env.nowIso⟩ ∧
    (handle { env with kvSyncEnabled := e, kvCallOk := o }
        (some env.apiToken) Route.location).2.kvSyncs =
      [sync_location_to_kv e o] := by
  cases hc : env.locationCache with
  | none =>
      constructor <;>
        simp [handle, run_guard, HTTPBearer_extract, verify_token,
              location_handler, location_refresh, hc, hup, hfail]
  | some c =>
      cases c with
      | notJson =>
          constructor <;>
            simp [handle, run_guard, HTTPBearer_extract, verify_token,
                  location_handler, location_refresh, hc, hup, hfail]
      | nonDict j =>
          simp only [cacheNeedsRefresh, hc] at hre
      | dict d =>
          simp only [cacheNeedsRefresh, hc] at hre
          cases hts : d.ts with
          | valueError =>
              constructor <;>
                simp [handle, run_guard, HTTPBearer_extract, verify_token,
                      location_handler, location_refresh, hc, hts, hup, hfail]
          | typeError =>
              simp only [hts] at hre
          | ok t =>
              simp only [hts] at hre
              constructor <;>
                simp [handle, run_guard, HTTPBearer_extract, verify_token,
                      location_handler, location_refresh, hc, hts, hre, hup, hfail]

/-- C8 witness: with no prior cache and a successful upstream payload,
the response is the same 200 whether KV sync is enabled and fails,
enabled and succeeds, or disabled. -/
theorem C8_kv_failure_harmless_witness :
    cacheNeedsRefresh envC8 ∧
    (handle { envC8 with kvSyncEnabled := true, kvCallOk := false }
        (some "secret") Route.location).1 =
      ⟨200, refreshSuccessBody
              (Json.obj [("status", Json.str "success"), ("city", Json.str "Pune")])
              envC8.nowIso⟩ := by
  exact ⟨trivial,
         (C8_kv_failure_harmless envC8
            [("status", Json.str "success"), ("city", Json.str "Pune")]
            trivial rfl rfl true false).1⟩

/-! ## C9 — fresh-cache requests do not write -/

/-- C9: an authorized GET /location served from a fresh cache entry only
reads the cache file: the final cache content equals the initial one, the
file is read exactly once, and no launch and no KV call happen. -/
theorem C9_fresh_cache_read_only (env : Env) (d : CacheDict) (t : Rat)
    (hc : env.locationCache = some (CacheFileContent.dict d))
    (hts : d.ts = TimestampParse.ok t)
    (hfresh : (env.now - t) / 3600 < cache_ttl_hours) :
    (handle env (some env.apiToken) Route.location).2.locationCache =
      env.locationCache ∧
    (handle env (some env.apiToken) Route.location).2.reads = ["location.json"] ∧
    (handle env (some env.apiToken) Route.location).2.launches = [] ∧
    (handle env (some env.apiToken) Route.location).2.kvSyncs = [] := by
  refine ⟨?_, ?_, ?_, ?_⟩ <;>
    simp [handle, run_guard, HTTPBearer_extract, verify_token,
          location_handler, hc, hts, hfresh]

/-- C9 witness: the fresh-cache request of envC4a leaves the cache file
exactly as it was. -/
theorem C9_fresh_cache_read_only_witness :
    (handle envC4a (some "secret") Route.location).2.locationCache =
      envC4a.locationCache ∧
    (handle envC4a (some "secret") Route.location).2.reads = ["location.json"] ∧
    (handle envC4a (some "secret") Route.location).2.launches = [] ∧
    (handle envC4a (some "secret") Route.location).2.kvSyncs = [] := by
  exact C9_fresh_cache_read_only envC4a docT 0 rfl rfl
          (by norm_num [envC4a, envA, cache_ttl_hours])

/-! ## C10 — the two source files agree on /videos and /open -/

/-- C10: the videos handler and the open-file handler of
src/bridge/main.py compute, for every filesystem state and every request,
exactly the same response — and for open-file the same launches — as
those of src/casie-bridge/main.py. -/
theorem C10_bridge_equivalence :
    (∀ videosFile : Option String,
        bridge_videos_handler videosFile = videos_handler videosFile) ∧
    (∀ (paths : List String) (path : String),
        bridge_open_file_handler paths path = open_file_handler paths path) := by
  constructor
  · intro vf
    cases vf <;> rfl
  · intro paths path
    simp [bridge_open_file_handler, open_file_handler]
